import Mathlib

/-!
Verification of the Figma-to-HTML/CSS converter (`style_converter.py`,
`layout_converter.py`, `html_generator.py`) against its natural-language
specification.

The Python code is shallowly embedded:
* JSON numbers are modelled as exact rationals (`ℚ`).  The inputs the
  converter consumes are decimal JSON literals, which are exactly
  representable; `pyStr` renders such a rational the way Python's `str`
  renders the corresponding value (integers without a decimal point,
  decimals with one).
* Python `dict.get(key, default)` accesses are modelled by `Option`
  fields read through `Option.getD` with the source's default.
* Python's `int()` (truncation toward zero) is `pyInt`.
* The mutable generator object (`self.css_classes`, `self.class_counter`)
  is modelled by an explicit state record threaded through the traversal.
-/

/-- Floor of a rational, computed on its numerator and denominator so that
it evaluates by kernel reduction. -/
def ratFloor (q : ℚ) : ℤ :=
  Int.ediv q.num (q.den : ℤ)

theorem ratFloor_eq_floor (q : ℚ) : ratFloor q = Int.floor q := by
  rw [ratFloor, Rat.floor_def]; rfl

/-- Python `int(q)`: truncation toward zero. -/
def pyInt (q : ℚ) : ℤ :=
  if q < 0 then -(ratFloor (-q)) else ratFloor q

/-- Decimal digits of the fraction `num/den` (`0 ≤ num < den`), with fuel;
used by `pyStr`.  Stops when the remainder reaches zero, as the decimals
occurring in the converter's inputs are terminating. -/
def fracDigitsInt : Nat → ℤ → ℤ → String
  | 0, _, _ => ""
  | fuel + 1, num, den =>
    let d : ℤ := Int.ediv (num * 10) den
    let r : ℤ := num * 10 - d * den
    if r = 0 then toString d else toString d ++ fracDigitsInt fuel r den

/-- Python `str` on a JSON-originated number: an integer prints with no
decimal point, a terminating decimal prints its digits. -/
def pyStr (q : ℚ) : String :=
  if q.den = 1 then toString q.num
  else
    let sign := if q.num < 0 then "-" else ""
    let na : ℤ := |q.num|
    let ip : ℤ := Int.ediv na (q.den : ℤ)
    let fr : ℤ := na % (q.den : ℤ)
    sign ++ toString ip ++ "." ++ fracDigitsInt 40 fr (q.den : ℤ)

theorem pyStr_one : pyStr 1 = "1" := by decide

theorem pyStr_130 : pyStr 130 = "130" := by decide

theorem pyInt_255 : pyInt (255 : ℚ) = 255 := by decide

/-- `{v:.1f}` formatting of an exact rational (gradient stop positions):
one decimal digit, rounding half to even as Python's `format` does on
exactly-representable values. -/
def fmt1q (q : ℚ) : String :=
  let t : ℚ := q * 10
  let n : ℤ :=
    if t - (ratFloor t : ℚ) = 1 / 2 then
      if (ratFloor t) % 2 = 0 then ratFloor t else ratFloor t + 1
    else ratFloor (t + 1 / 2)
  let m : ℤ := |n|
  let sign := if n < 0 then "-" else ""
  sign ++ toString (Int.ediv m 10) ++ "." ++ toString (m % 10)

/-! ## Data model (§3 of the spec, fields as accessed by the source) -/

/-- `absoluteBoundingBox` record. -/
structure BBox where
  x : Option ℚ
  y : Option ℚ
  width : Option ℚ
  height : Option ℚ
deriving DecidableEq

/-- `{r,g,b,a}` color record with normalized channels. -/
structure Color where
  r : Option ℚ
  g : Option ℚ
  b : Option ℚ
  a : Option ℚ
deriving DecidableEq

/-- A gradient handle position `{x,y}`. -/
structure Handle where
  x : Option ℚ
  y : Option ℚ
deriving DecidableEq

/-- A gradient stop `{color, position}`. -/
structure GradientStop where
  color : Option Color
  position : Option ℚ
deriving DecidableEq

/-- A `Paint` (fill or stroke). -/
structure Paint where
  type : Option String
  visible : Option Bool
  opacity : Option ℚ
  color : Option Color
  gradientStops : List GradientStop
  gradientHandlePositions : List Handle
  imageRef : Option String
deriving DecidableEq

/-- An `Effect` (shadow or blur). -/
structure Offset where
  x : Option ℚ
  y : Option ℚ
deriving DecidableEq

/-- An `Effect` record. -/
structure Effect where
  type : Option String
  visible : Option Bool
  offset : Option Offset
  radius : Option ℚ
  color : Option Color
deriving DecidableEq

/-- `individualStrokeWeights` record. -/
structure StrokeWeights where
  top : Option ℚ
  right : Option ℚ
  bottom : Option ℚ
  left : Option ℚ
deriving DecidableEq

/-- The `style` record of a TEXT node. -/
structure TextStyle where
  fontFamily : Option String
  fontSize : Option ℚ
  fontWeight : Option ℚ
  lineHeightPx : Option ℚ
  lineHeightPercent : Option ℚ
  lineHeightPercentFontSize : Option ℚ
  letterSpacing : Option ℚ
  textAlignHorizontal : Option String
  textAlignVertical : Option String
  textDecoration : Option String
  textCase : Option String
deriving DecidableEq

/-- Scalar fields of a design node (everything except `children`). -/
structure NodeData where
  id : Option String
  name : Option String
  type : Option String
  visible : Option Bool
  absoluteBoundingBox : Option BBox
  layoutMode : Option String
  primaryAxisAlignItems : Option String
  counterAxisAlignItems : Option String
  itemSpacing : Option ℚ
  paddingLeft : Option ℚ
  paddingRight : Option ℚ
  paddingTop : Option ℚ
  paddingBottom : Option ℚ
  layoutWrap : Option String
  layoutSizingHorizontal : Option String
  layoutSizingVertical : Option String
  clipsContent : Option Bool
  rotation : Option ℚ
  fills : List Paint
  strokes : List Paint
  strokeWeight : Option ℚ
  strokeAlign : Option String
  individualStrokeWeights : Option StrokeWeights
  cornerRadius : Option ℚ
  rectangleCornerRadii : Option (List ℚ)
  effects : List Effect
  opacity : Option ℚ
  blendMode : Option String
  characters : Option String
  style : Option TextStyle
deriving DecidableEq

/-- A design node: scalar data plus ordered children. -/
inductive Node where
  | mk : NodeData → List Node → Node

/-- Scalar data of a node. -/
def Node.data : Node → NodeData
  | .mk d _ => d

/-- `node.get('children', [])`. -/
def Node.children : Node → List Node
  | .mk _ cs => cs

/-- A node with every field absent: the value of `document.get(k, {})`
style defaults. -/
def NodeData.empty : NodeData :=
  ⟨none, none, none, none, none, none, none, none, none, none, none, none,
   none, none, none, none, none, none, [], [], none, none, none, none, none,
   [], none, none, none, none⟩

/-- The top-level Figma API payload: at most a `document` entry. -/
structure FigmaData where
  document : Option Node

/-! ## String helpers

The Python code manipulates strings through `html.escape`, `str.replace`,
`str.lower` and f-strings.  These are modelled over the character list of
the string so that they evaluate by kernel reduction.  (`str.lower` and
`str.isalnum` are Unicode-aware in Python; the embedding uses Lean's
ASCII-correct character predicates, which agree on the inputs considered.) -/

/-- Map a function over the characters of a string. -/
def strMap (f : Char → Char) (s : String) : String :=
  String.mk (s.data.map f)

/-- Prefix test on strings, computed on their character lists. -/
def strStartsWith (p s : String) : Bool :=
  List.isPrefixOf p.data s.data

/-- One character of `html.escape` (escaping `& < > " '`). -/
def escapeChar (c : Char) : List Char :=
  if c = '&' then "&amp;".data
  else if c = '<' then "&lt;".data
  else if c = '>' then "&gt;".data
  else if c = '"' then "&quot;".data
  else if c = '\x27' then "&#x27;".data
  else [c]

/-- `html.escape(s)`. -/
def htmlEscape (s : String) : String :=
  String.mk (s.data.flatMap escapeChar)

/-- `s.replace('\n', '<br>')`. -/
def nlToBr (s : String) : String :=
  String.mk (s.data.flatMap fun c => if c = '\n' then "<br>".data else [c])

/-! ## Real-valued gradient-angle math (§4.1)

`math.atan2` and `math.degrees` from `style_converter.py` are modelled over
the reals; `atan2 y x` is the argument of the complex number `x + y*I`,
which agrees with the C/Python `atan2` (range `(-π, π]`, `atan2 0 0 = 0`). -/

noncomputable def atan2 (y x : ℝ) : ℝ :=
  Complex.arg ⟨x, y⟩

/-- `math.degrees`. -/
noncomputable def degrees (x : ℝ) : ℝ :=
  x * 180 / Real.pi

/-- The linear-gradient angle computed inside `_convert_linear_gradient`
(`style_converter.py` lines 76-84): default `180`, else
`degrees(atan2(dy, dx)) + 90` for `(dx, dy) = handles[1] - handles[0]`,
with the source's `.get` defaults for the handle coordinates. -/
noncomputable def gradient_angle (handles : List Handle) : ℝ :=
  match handles with
  | h1 :: h2 :: _ =>
    let x1 : ℚ := h1.x.getD 0
    let y1 : ℚ := h1.y.getD 0
    let x2 : ℚ := h2.x.getD 1
    let y2 : ℚ := h2.y.getD 1
    let dx : ℝ := (x2 : ℝ) - (x1 : ℝ)
    let dy : ℝ := (y2 : ℝ) - (y1 : ℝ)
    degrees (atan2 dy dx) + 90
  | _ => 180

/-- `{x:.1f}` formatting of a real (the gradient angle): one decimal digit,
rounding half to even.  (Python formats the underlying binary float; on the
values reached by any theorem below the formatted digits are not inspected,
only the angle value itself is.) -/
noncomputable def fmt1r (x : ℝ) : String :=
  let t : ℝ := x * 10
  let n : ℤ :=
    if t - (Int.floor t : ℝ) = 1 / 2 then
      if (Int.floor t) % 2 = 0 then Int.floor t else Int.floor t + 1
    else Int.floor (t + 1 / 2)
  let m : ℤ := |n|
  let sign := if n < 0 then "-" else ""
  sign ++ toString (Int.ediv m 10) ++ "." ++ toString (m % 10)

/-! ## StyleConverter (`style_converter.py`) -/

/-- The empty color dict `{}`, the default of `fill.get('color', {})`. -/
def Color.empty : Color := ⟨none, none, none, none⟩

/-- `StyleConverter.rgba_to_css` (lines 7-14): channels are truncated with
Python's `int()`, the alpha is rendered with Python's `str`. -/
def rgba_to_css (color : Color) : String :=
  let r : ℤ := pyInt ((color.r.getD 0) * 255)
  let g : ℤ := pyInt ((color.g.getD 0) * 255)
  let b : ℤ := pyInt ((color.b.getD 0) * 255)
  let a : ℚ := color.a.getD 1
  "rgba(" ++ toString r ++ ", " ++ toString g ++ ", " ++ toString b ++
    ", " ++ pyStr a ++ ")"

/-- One gradient stop string `f"{color} {position:.1f}%"`. -/
def gradient_stop_pct (stop : GradientStop) : String :=
  rgba_to_css (stop.color.getD Color.empty) ++ " " ++
    fmt1q ((stop.position.getD 0) * 100) ++ "%"

/-- `StyleConverter._convert_linear_gradient` (lines 66-93). -/
noncomputable def convert_linear_gradient (fill : Paint) : Option String :=
  match fill.gradientStops with
  | [] => none
  | stops =>
    let angle : ℝ := gradient_angle fill.gradientHandlePositions
    some ("linear-gradient(" ++ fmt1r angle ++ "deg, " ++
      String.intercalate ", " (stops.map gradient_stop_pct) ++ ")")

/-- `StyleConverter._convert_radial_gradient` (lines 95-108). -/
def convert_radial_gradient (fill : Paint) : Option String :=
  match fill.gradientStops with
  | [] => none
  | stops =>
    some ("radial-gradient(circle, " ++
      String.intercalate ", " (stops.map gradient_stop_pct) ++ ")")

/-- One angular gradient stop string `f"{color} {position:.1f}deg"`. -/
def gradient_stop_deg (stop : GradientStop) : String :=
  rgba_to_css (stop.color.getD Color.empty) ++ " " ++
    fmt1q ((stop.position.getD 0) * 360) ++ "deg"

/-- `StyleConverter._convert_angular_gradient` (lines 110-123). -/
def convert_angular_gradient (fill : Paint) : Option String :=
  match fill.gradientStops with
  | [] => none
  | stops =>
    some ("conic-gradient(" ++
      String.intercalate ", " (stops.map gradient_stop_deg) ++ ")")

/-- The declarations contributed by one entry of `fills` in
`StyleConverter.get_background_styles` (the loop body, lines 25-62).
For a SOLID fill with paint opacity < 1 the source splits the just-built
`rgba(R, G, B, A)` string on commas, multiplies the parsed alpha by the
opacity and rejoins; on strings produced by `rgba_to_css` this equals
rebuilding the string with alpha `a * opacity` and no space before it,
which is how it is written here. -/
noncomputable def fill_styles (fill : Paint) : List String :=
  if (fill.visible.getD true) = false then []
  else
    let opacity : ℚ := fill.opacity.getD 1
    match fill.type with
    | some "SOLID" =>
      let color := fill.color.getD Color.empty
      let rgba :=
        if opacity < 1 then
          "rgba(" ++ toString (pyInt ((color.r.getD 0) * 255)) ++ ", " ++
            toString (pyInt ((color.g.getD 0) * 255)) ++ ", " ++
            toString (pyInt ((color.b.getD 0) * 255)) ++ "," ++
            pyStr ((color.a.getD 1) * opacity) ++ ")"
        else rgba_to_css color
      ["background-color: " ++ rgba ++ ";"]
    | some "GRADIENT_LINEAR" =>
      match convert_linear_gradient fill with
      | some gradient => ["background: " ++ gradient ++ ";"]
      | none => []
    | some "GRADIENT_RADIAL" =>
      match convert_radial_gradient fill with
      | some gradient => ["background: " ++ gradient ++ ";"]
      | none => []
    | some "GRADIENT_ANGULAR" =>
      match convert_angular_gradient fill with
      | some gradient => ["background: " ++ gradient ++ ";"]
      | none => []
    | some "IMAGE" =>
      match fill.imageRef with
      | some image_ref =>
        ["/* background-image: requires image ref " ++ image_ref ++ " */"]
      | none => []
    | _ => []

/-- `StyleConverter.get_background_styles` (lines 16-64). -/
noncomputable def get_background_styles (node : NodeData) : List String :=
  node.fills.flatMap fill_styles

/-- The declarations contributed by one entry of `strokes` in
`StyleConverter.get_border_styles` (the loop body, lines 136-156). -/
noncomputable def stroke_styles (stroke_weight : ℚ) (stroke_align : String)
    (stroke : Paint) : List String :=
  if (stroke.visible.getD true) = false then []
  else
    match stroke.type with
    | some "SOLID" =>
      let color := rgba_to_css (stroke.color.getD Color.empty)
      ("border: " ++ pyStr stroke_weight ++ "px solid " ++ color ++ ";") ::
        (if stroke_align = "OUTSIDE" then ["box-sizing: content-box;"] else [])
    | some "GRADIENT_LINEAR" =>
      match convert_linear_gradient stroke with
      | some gradient =>
        ["border: " ++ pyStr stroke_weight ++ "px solid;",
         "border-image: " ++ gradient ++ " 1;"]
      | none => []
    | _ => []

/-- `StyleConverter.get_border_styles` (lines 125-166). -/
noncomputable def get_border_styles (node : NodeData) : List String :=
  let stroke_weight : ℚ := node.strokeWeight.getD 0
  let stroke_align : String := node.strokeAlign.getD "INSIDE"
  if node.strokes = [] ∨ stroke_weight = 0 then []
  else
    node.strokes.flatMap (stroke_styles stroke_weight stroke_align) ++
      (match node.individualStrokeWeights with
       | some weights =>
         ["border-top-width: " ++ pyStr (weights.top.getD stroke_weight) ++ "px;",
          "border-right-width: " ++ pyStr (weights.right.getD stroke_weight) ++ "px;",
          "border-bottom-width: " ++ pyStr (weights.bottom.getD stroke_weight) ++ "px;",
          "border-left-width: " ++ pyStr (weights.left.getD stroke_weight) ++ "px;"]
       | none => [])

/-- `StyleConverter.get_border_radius` (lines 168-185). -/
def get_border_radius (node : NodeData) : List String :=
  (match node.cornerRadius with
   | some radius =>
     if radius > 0 then ["border-radius: " ++ pyStr radius ++ "px;"] else []
   | none => []) ++
  (match node.rectangleCornerRadii with
   | some [r0, r1, r2, r3] =>
     ["border-radius: " ++ pyStr r0 ++ "px " ++ pyStr r1 ++ "px " ++
       pyStr r2 ++ "px " ++ pyStr r3 ++ "px;"]
   | some _ => []
   | none => [])

/-- The empty text-style dict `{}`, the default of `node.get('style', {})`. -/
def TextStyle.empty : TextStyle :=
  ⟨none, none, none, none, none, none, none, none, none, none, none⟩

/-- `StyleConverter.get_text_styles` (lines 187-255). -/
def get_text_styles (node : NodeData) : List String :=
  let style := node.style.getD TextStyle.empty
  (match style.fontFamily with
   | some font_family =>
     ["font-family: \x27" ++ font_family ++ "\x27, sans-serif;"]
   | none => []) ++
  (match style.fontSize with
   | some v => ["font-size: " ++ pyStr v ++ "px;"]
   | none => []) ++
  (match style.fontWeight with
   | some v => ["font-weight: " ++ pyStr v ++ ";"]
   | none => []) ++
  (match style.lineHeightPx with
   | some v => ["line-height: " ++ pyStr v ++ "px;"]
   | none =>
     match style.lineHeightPercent with
     | some percent => ["line-height: " ++ pyStr (percent / 100) ++ ";"]
     | none =>
       match style.lineHeightPercentFontSize with
       | some percent => ["line-height: " ++ pyStr (percent / 100) ++ ";"]
       | none => []) ++
  (match style.letterSpacing with
   | some v => ["letter-spacing: " ++ pyStr v ++ "px;"]
   | none => []) ++
  (match style.textAlignHorizontal with
   | some s =>
     let align := strMap Char.toLower s
     if align = "left" ∨ align = "right" ∨ align = "center" ∨
         align = "justified" then
       ["text-align: " ++ (if align = "justified" then "justify" else align) ++ ";"]
     else []
   | none => []) ++
  (match style.textAlignVertical with
   | some s =>
     let v_align := strMap Char.toLower s
     if v_align = "top" then ["align-items: flex-start;"]
     else if v_align = "center" then ["align-items: center;"]
     else if v_align = "bottom" then ["align-items: flex-end;"]
     else []
   | none => []) ++
  (match style.textDecoration with
   | some s =>
     let decoration := strMap Char.toLower s
     if decoration = "underline" ∨ decoration = "line-through" ∨
         decoration = "strikethrough" then
       ["text-decoration: " ++
         (if decoration = "strikethrough" then "line-through" else decoration) ++ ";"]
     else []
   | none => []) ++
  (match style.textCase with
   | some "UPPER" => ["text-transform: uppercase;"]
   | some "LOWER" => ["text-transform: lowercase;"]
   | some "TITLE" => ["text-transform: capitalize;"]
   | _ => [])

/-- The `box_shadows` entry contributed by one effect in
`StyleConverter.get_effect_styles` (lines 274-288). -/
def shadow_entry (effect : Effect) : Option String :=
  if (effect.visible.getD true) = false then none
  else
    match effect.type with
    | some "DROP_SHADOW" =>
      let offset := effect.offset.getD ⟨none, none⟩
      some (pyStr (offset.x.getD 0) ++ "px " ++ pyStr (offset.y.getD 0) ++
        "px " ++ pyStr (effect.radius.getD 0) ++ "px " ++
        rgba_to_css (effect.color.getD Color.empty))
    | some "INNER_SHADOW" =>
      let offset := effect.offset.getD ⟨none, none⟩
      some ("inset " ++ pyStr (offset.x.getD 0) ++ "px " ++
        pyStr (offset.y.getD 0) ++ "px " ++ pyStr (effect.radius.getD 0) ++
        "px " ++ rgba_to_css (effect.color.getD Color.empty))
    | _ => none

/-- The blur declaration contributed by one effect in
`StyleConverter.get_effect_styles` (lines 290-298). -/
def blur_decl (effect : Effect) : List String :=
  if (effect.visible.getD true) = false then []
  else
    match effect.type with
    | some "LAYER_BLUR" =>
      let radius := effect.radius.getD 0
      if radius > 0 then ["filter: blur(" ++ pyStr radius ++ "px);"] else []
    | some "BACKGROUND_BLUR" =>
      let radius := effect.radius.getD 0
      if radius > 0 then ["backdrop-filter: blur(" ++ pyStr radius ++ "px);"]
      else []
    | _ => []

/-- `StyleConverter.get_effect_styles` (lines 257-303): the loop appends
blur declarations to `styles` and shadow strings to `box_shadows`; the
combined `box-shadow` declaration is appended after the loop. -/
def get_effect_styles (node : NodeData) : List String :=
  let box_shadows := node.effects.filterMap shadow_entry
  node.effects.flatMap blur_decl ++
    (if box_shadows = [] then []
     else ["box-shadow: " ++ String.intercalate ", " box_shadows ++ ";"])

/-- `StyleConverter.get_opacity` (lines 305-312). -/
def get_opacity (node : NodeData) : List String :=
  let opacity := node.opacity.getD 1
  if opacity < 1 then ["opacity: " ++ pyStr opacity ++ ";"] else []

/-- The fixed Figma→CSS blend-mode table (lines 321-338). -/
def blend_mode_map : List (String × String) :=
  [("NORMAL", "normal"), ("DARKEN", "darken"), ("MULTIPLY", "multiply"),
   ("COLOR_BURN", "color-burn"), ("LIGHTEN", "lighten"), ("SCREEN", "screen"),
   ("COLOR_DODGE", "color-dodge"), ("OVERLAY", "overlay"),
   ("SOFT_LIGHT", "soft-light"), ("HARD_LIGHT", "hard-light"),
   ("DIFFERENCE", "difference"), ("EXCLUSION", "exclusion"), ("HUE", "hue"),
   ("SATURATION", "saturation"), ("COLOR", "color"),
   ("LUMINOSITY", "luminosity")]

/-- `StyleConverter.get_blend_mode` (lines 314-344). -/
def get_blend_mode (node : NodeData) : List String :=
  let blend_mode := node.blendMode.getD "PASS_THROUGH"
  match blend_mode_map.lookup blend_mode with
  | some css_blend => ["mix-blend-mode: " ++ css_blend ++ ";"]
  | none => []

/-! ## LayoutConverter (`layout_converter.py`) -/

/-- The empty bounding-box dict `{}`, the default of
`node.get('absoluteBoundingBox', {})`. -/
def BBox.empty : BBox := ⟨none, none, none, none⟩

/-- `LayoutConverter.get_position_styles` (lines 6-36).  The parent is
`Option NodeData` (`None` in Python); the relative position is computed only
when the parent carries an `absoluteBoundingBox`, and no positioning is
emitted when the parent's `layoutMode` is auto-layout. -/
def get_position_styles (node : NodeData) (parent : Option NodeData) :
    List String :=
  let abs_box := node.absoluteBoundingBox.getD BBox.empty
  let x0 : ℚ := abs_box.x.getD 0
  let y0 : ℚ := abs_box.y.getD 0
  let x : ℚ :=
    match parent with
    | some p =>
      match p.absoluteBoundingBox with
      | some parent_box => x0 - parent_box.x.getD 0
      | none => x0
    | none => x0
  let y : ℚ :=
    match parent with
    | some p =>
      match p.absoluteBoundingBox with
      | some parent_box => y0 - parent_box.y.getD 0
      | none => y0
    | none => y0
  let skip : Bool :=
    match parent with
    | some p =>
      p.layoutMode = some "HORIZONTAL" ∨ p.layoutMode = some "VERTICAL"
    | none => false
  if skip then []
  else
    ["position: absolute;", "left: " ++ pyStr x ++ "px;",
     "top: " ++ pyStr y ++ "px;"]

/-- `LayoutConverter.get_size_styles` (lines 38-70). -/
def get_size_styles (node : NodeData) : List String :=
  let abs_box := node.absoluteBoundingBox.getD BBox.empty
  let width : ℚ := abs_box.width.getD 0
  let height : ℚ := abs_box.height.getD 0
  (match node.layoutSizingHorizontal with
   | some "FILL" => ["width: 100%;"]
   | some "HUG" => ["width: fit-content;"]
   | _ => if width > 0 then ["width: " ++ pyStr width ++ "px;"] else []) ++
  (match node.layoutSizingVertical with
   | some "FILL" => ["height: 100%;"]
   | some "HUG" => ["height: fit-content;"]
   | _ => if height > 0 then ["height: " ++ pyStr height ++ "px;"] else [])

/-- `LayoutConverter.get_auto_layout_styles` (lines 72-146). -/
def get_auto_layout_styles (node : NodeData) : List String :=
  match node.layoutMode with
  | none => []
  | some "NONE" => []
  | some layout_mode =>
    ["display: flex;"] ++
    (if layout_mode = "HORIZONTAL" then ["flex-direction: row;"]
     else if layout_mode = "VERTICAL" then ["flex-direction: column;"]
     else []) ++
    (let primary_align := node.primaryAxisAlignItems.getD "MIN"
     if primary_align = "MIN" then ["justify-content: flex-start;"]
     else if primary_align = "CENTER" then ["justify-content: center;"]
     else if primary_align = "MAX" then ["justify-content: flex-end;"]
     else if primary_align = "SPACE_BETWEEN" then
       ["justify-content: space-between;"]
     else []) ++
    (let counter_align := node.counterAxisAlignItems.getD "MIN"
     if counter_align = "MIN" then ["align-items: flex-start;"]
     else if counter_align = "CENTER" then ["align-items: center;"]
     else if counter_align = "MAX" then ["align-items: flex-end;"]
     else if counter_align = "BASELINE" then ["align-items: baseline;"]
     else []) ++
    (let item_spacing := node.itemSpacing.getD 0
     if item_spacing > 0 then ["gap: " ++ pyStr item_spacing ++ "px;"]
     else []) ++
    (let padding_left := node.paddingLeft.getD 0
     let padding_right := node.paddingRight.getD 0
     let padding_top := node.paddingTop.getD 0
     let padding_bottom := node.paddingBottom.getD 0
     if padding_left = padding_right ∧ padding_right = padding_top ∧
         padding_top = padding_bottom then
       if padding_left > 0 then ["padding: " ++ pyStr padding_left ++ "px;"]
       else []
     else
       if padding_top > 0 ∨ padding_right > 0 ∨ padding_bottom > 0 ∨
           padding_left > 0 then
         ["padding: " ++ pyStr padding_top ++ "px " ++ pyStr padding_right ++
           "px " ++ pyStr padding_bottom ++ "px " ++ pyStr padding_left ++
           "px;"]
       else []) ++
    (if node.layoutWrap.getD "NO_WRAP" = "WRAP" then ["flex-wrap: wrap;"]
     else [])

/-- `LayoutConverter.get_constraints_styles` (lines 148-181); present in the
source module but never invoked by the HTML generator. -/
def get_constraints_styles (horizontal vertical : Option String) :
    List String :=
  (match horizontal with
   | some "LEFT_RIGHT" => ["left: 0;", "right: 0;"]
   | some "RIGHT" => ["right: 0;"]
   | some "CENTER" => ["left: 50%;", "transform: translateX(-50%);"]
   | some "SCALE" => ["width: 100%;"]
   | _ => []) ++
  (match vertical with
   | some "TOP_BOTTOM" => ["top: 0;", "bottom: 0;"]
   | some "BOTTOM" => ["bottom: 0;"]
   | some "CENTER" => ["top: 50%;", "transform: translateY(-50%);"]
   | some "SCALE" => ["height: 100%;"]
   | _ => [])

/-- `LayoutConverter.get_overflow_styles` (lines 183-193). -/
def get_overflow_styles (node : NodeData) : List String :=
  if node.clipsContent.getD false then ["overflow: hidden;"] else []

/-- `LayoutConverter.get_transform_styles` (lines 195-213); the
`relativeTransform` branch of the source is a no-op. -/
def get_transform_styles (node : NodeData) : List String :=
  match node.rotation with
  | some rotation =>
    if rotation ≠ 0 then ["transform: rotate(" ++ pyStr rotation ++ "deg);"]
    else []
  | none => []

/-! ## HTMLGenerator (`html_generator.py`)

The two instance fields set in `HTMLGenerator.__init__` (`self.css_classes`,
an insertion-ordered dict, and `self.class_counter`) are modelled as an
explicit state record threaded through the traversal.  `generate_html_css`
itself never resets this state; construction does. -/

/-- The mutable generator state: the class→styles side table (insertion
ordered, as a Python dict) and the class-name counter. -/
structure GenState where
  css_classes : List (String × List String)
  class_counter : Nat

/-- The state set up by `HTMLGenerator.__init__` (lines 9-13). -/
def initState : GenState := ⟨[], 0⟩

/-- Python dict assignment `d[k] = v` on an insertion-ordered table:
update in place if the key exists, else append. -/
def dictInsert (d : List (String × List String)) (k : String)
    (v : List String) : List (String × List String) :=
  if d.any (fun e => e.1 = k) then
    d.map (fun e => if e.1 = k then (k, v) else e)
  else d ++ [(k, v)]

/-- One character of the class-name sanitizer: keep alphanumerics and `-`,
replace anything else by `_` (line 171). -/
def sanitizeChar (c : Char) : Char :=
  if c.isAlphanum ∨ c = '-' then c else '_'

/-- `HTMLGenerator._generate_class_name` (lines 165-176): lowercase and
sanitize the node name, truncate to 30 characters, increment the counter
and append it.  (The unused `node_id` read of the source is omitted.) -/
def generate_class_name (st : GenState) (node : NodeData) :
    String × GenState :=
  let node_name := node.name.getD "element"
  let safe_name :=
    String.mk (((strMap Char.toLower node_name).data.map sanitizeChar).take 30)
  let counter := st.class_counter + 1
  ("figma-" ++ safe_name ++ "-" ++ toString counter,
   ⟨st.css_classes, counter⟩)

/-- The layout and visual declarations gathered by
`HTMLGenerator._collect_styles` (lines 140-153) before the TEXT-specific
block. -/
noncomputable def collect_styles_base (node : NodeData)
    (parent : Option NodeData) : List String :=
  get_auto_layout_styles node ++
  get_position_styles node parent ++
  get_size_styles node ++
  get_overflow_styles node ++
  get_transform_styles node ++
  get_background_styles node ++
  get_border_styles node ++
  get_border_radius node ++
  get_effect_styles node ++
  get_opacity node ++
  get_blend_mode node

/-- For a TEXT node, the style list at line 159 of the source: the base
declarations extended with the typography declarations, i.e. the list in
which the source looks for `display: flex;`. -/
noncomputable def collect_styles_with_text (node : NodeData)
    (parent : Option NodeData) : List String :=
  collect_styles_base node parent ++ get_text_styles node

/-- `HTMLGenerator._collect_styles` (lines 136-163): layout declarations,
then visual declarations, then — for TEXT nodes — typography followed by
`display: flex;` (only if not already present) and an unconditional
`align-items: center;` (line 161, outside the `if`). -/
noncomputable def collect_styles (node : NodeData) (parent : Option NodeData) :
    List String :=
  if node.type = some "TEXT" then
    let styles := collect_styles_with_text node parent
    let styles :=
      if "display: flex;" ∈ styles then styles
      else styles ++ ["display: flex;"]
    styles ++ ["align-items: center;"]
  else collect_styles_base node parent

/-- `HTMLGenerator._generate_text_html` (lines 95-103). -/
def generate_text_html (node : NodeData) (class_name : String) : String :=
  let text_content := nlToBr (htmlEscape (node.characters.getD ""))
  "<div class=\"" ++ class_name ++ "\">" ++ text_content ++ "</div>"

/-- The fixed reset/base block prepended by `HTMLGenerator._generate_css`
(lines 183-196). -/
def base_styles : String :=
  "/* Base styles */\n* \x7b\n    box-sizing: border-box;\n    margin: 0;\n    padding: 0;\n\x7d\n\nbody \x7b\n    margin: 0;\n    padding: 0;\n    font-family: -apple-system, BlinkMacSystemFont, \x27Segoe UI\x27, \x27Roboto\x27, \x27Helvetica\x27, \x27Arial\x27, sans-serif;\n\x7d\n\n/* Figma styles */"

/-- The rule-block lines of one side-table entry in
`HTMLGenerator._generate_css` (lines 199-204): skipped when the style list
is empty. -/
def css_entry_parts (e : String × List String) : List String :=
  if e.2 = [] then []
  else ("." ++ e.1 ++ " \x7b") :: e.2.map (fun style => "    " ++ style) ++
    ["\x7d\n"]

/-- `HTMLGenerator._generate_css` (lines 178-206). -/
def generate_css (css_classes : List (String × List String)) : String :=
  String.intercalate "\n" (base_styles :: css_classes.flatMap css_entry_parts)

/-- `HTMLGenerator._wrap_html` (lines 208-221). -/
def wrap_html (content : String) : String :=
  "<!DOCTYPE html>\n<html lang=\"en\">\n<head>\n    <meta charset=\"UTF-8\">\n    <meta name=\"viewport\" content=\"width=device-width, initial-scale=1.0\">\n    <title>Figma to HTML</title>\n    <link rel=\"stylesheet\" href=\"styles.css\">\n</head>\n<body>\n" ++ content ++ "\n</body>\n</html>"

mutual

/-- `HTMLGenerator._generate_node_html` (lines 46-93), with the bodies of
`_generate_container_html` (105-118) and `_generate_shape_html` (120-134)
inlined so the recursion is structural: the three non-TEXT dispatch arms all
visit the children with `parent := node` and `depth + 1` and wrap them in a
`<div>`, except that a shape with no children emits `<div ...></div>`
without the inner newlines (and visiting an empty child list leaves the
state unchanged, as in the source). -/
noncomputable def generate_node_html (st : GenState) (node : Node)
    (parent : Option NodeData) (depth : Nat) : String × GenState :=
  match node with
  | .mk data cs =>
    if data.type = some "DOCUMENT" ∨ data.type = some "CANVAS" then
      let r := generate_children st cs data depth
      (String.intercalate "\n" r.1, r.2)
    else if data.visible.getD true = false then ("", st)
    else
      let cr := generate_class_name st data
      let class_name := cr.1
      let styles := collect_styles data parent
      let st2 : GenState :=
        ⟨dictInsert cr.2.css_classes class_name styles, cr.2.class_counter⟩
      if data.type = some "TEXT" then
        (generate_text_html data class_name, st2)
      else
        let r := generate_children st2 cs data (depth + 1)
        let shape : Bool :=
          data.type = some "RECTANGLE" ∨ data.type = some "ELLIPSE" ∨
            data.type = some "VECTOR" ∨ data.type = some "STAR" ∨
            data.type = some "POLYGON"
        if shape && cs.isEmpty then
          ("<div class=\"" ++ class_name ++ "\"></div>", r.2)
        else
          ("<div class=\"" ++ class_name ++ "\">\n" ++
            String.intercalate "\n" r.1 ++ "\n</div>", r.2)

/-- The child loops of `_generate_node_html` / `_generate_container_html` /
`_generate_shape_html`: visit each child in order, threading the state, and
keep the non-empty HTML fragments. -/
noncomputable def generate_children (st : GenState) (nodes : List Node)
    (parent : NodeData) (depth : Nat) : List String × GenState :=
  match nodes with
  | [] => ([], st)
  | c :: rest =>
    let r1 := generate_node_html st c (some parent) depth
    let r2 := generate_children r1.2 rest parent depth
    ((if r1.1 = "" then r2.1 else r1.1 :: r2.1), r2.2)

end

/-- `HTMLGenerator.generate_html_css` (lines 15-44): locate the first page,
walk it, serialize the side table, wrap the fragment.  The generator state
is an explicit argument and result; the source reads and mutates
`self.css_classes` / `self.class_counter` without resetting them. -/
noncomputable def generate_html_css (st : GenState) (figma_data : FigmaData) :
    (String × String) × GenState :=
  let children :=
    match figma_data.document with
    | some document => document.children
    | none => []
  match children with
  | [] => (("<div>No content</div>", ""), st)
  | page :: _ =>
    let r := generate_node_html st page none 0
    let css_content := generate_css r.2.css_classes
    ((wrap_html r.1, css_content), r.2)

/-! ## Position / left / top declarations (claims about positioning) -/

/-- Whether a CSS declaration string is a `position`, `left` or `top`
declaration (i.e. starts with that property name and a colon). -/
def isPosDecl (s : String) : Bool :=
  strStartsWith "position:" s || strStartsWith "left:" s || strStartsWith "top:" s

/-- Every string of the list is not a position/left/top declaration. -/
def AllNoPos (l : List String) : Prop :=
  ∀ s ∈ l, isPosDecl s = false

theorem allNoPos_nil : AllNoPos [] := by
  intro s hs
  cases hs

theorem allNoPos_append {l1 l2 : List String} (h1 : AllNoPos l1)
    (h2 : AllNoPos l2) : AllNoPos (l1 ++ l2) := by
  intro s hs
  rcases List.mem_append.1 hs with h | h
  · exact h1 s h
  · exact h2 s h

theorem allNoPos_cons {x : String} {l : List String}
    (hx : isPosDecl x = false) (hl : AllNoPos l) : AllNoPos (x :: l) := by
  intro s hs
  rcases List.mem_cons.1 hs with h | h
  · exact h ▸ hx
  · exact hl s h

theorem allNoPos_ite (c : Prop) [Decidable c] {l1 l2 : List String}
    (h1 : AllNoPos l1) (h2 : AllNoPos l2) : AllNoPos (if c then l1 else l2) := by
  split
  · exact h1
  · exact h2

theorem allNoPos_flatMap {α : Type} {f : α → List String} {l : List α}
    (h : ∀ x, AllNoPos (f x)) : AllNoPos (l.flatMap f) := by
  intro s hs
  rcases List.mem_flatMap.1 hs with ⟨x, _, hsx⟩
  exact h x s hsx

theorem noPos_auto_layout (node : NodeData) :
    AllNoPos (get_auto_layout_styles node) := by
  unfold get_auto_layout_styles
  split
  · exact allNoPos_nil
  · exact allNoPos_nil
  · refine allNoPos_cons rfl
      (allNoPos_append (allNoPos_append (allNoPos_append (allNoPos_append
        (allNoPos_append ?_ ?_) ?_) ?_) ?_) ?_)
    · exact allNoPos_ite _ (allNoPos_cons rfl allNoPos_nil)
        (allNoPos_ite _ (allNoPos_cons rfl allNoPos_nil) allNoPos_nil)
    · exact allNoPos_ite _ (allNoPos_cons rfl allNoPos_nil)
        (allNoPos_ite _ (allNoPos_cons rfl allNoPos_nil)
          (allNoPos_ite _ (allNoPos_cons rfl allNoPos_nil)
            (allNoPos_ite _ (allNoPos_cons rfl allNoPos_nil) allNoPos_nil)))
    · exact allNoPos_ite _ (allNoPos_cons rfl allNoPos_nil)
        (allNoPos_ite _ (allNoPos_cons rfl allNoPos_nil)
          (allNoPos_ite _ (allNoPos_cons rfl allNoPos_nil)
            (allNoPos_ite _ (allNoPos_cons rfl allNoPos_nil) allNoPos_nil)))
    · exact allNoPos_ite _ (allNoPos_cons rfl allNoPos_nil) allNoPos_nil
    · exact allNoPos_ite _
        (allNoPos_ite _ (allNoPos_cons rfl allNoPos_nil) allNoPos_nil)
        (allNoPos_ite _ (allNoPos_cons rfl allNoPos_nil) allNoPos_nil)
    · exact allNoPos_ite _ (allNoPos_cons rfl allNoPos_nil) allNoPos_nil

theorem noPos_size (node : NodeData) : AllNoPos (get_size_styles node) := by
  unfold get_size_styles
  refine allNoPos_append ?_ ?_ <;>
    · split
      · exact allNoPos_cons rfl allNoPos_nil
      · exact allNoPos_cons rfl allNoPos_nil
      · exact allNoPos_ite _ (allNoPos_cons rfl allNoPos_nil) allNoPos_nil

theorem noPos_overflow (node : NodeData) : AllNoPos (get_overflow_styles node) := by
  unfold get_overflow_styles
  exact allNoPos_ite _ (allNoPos_cons rfl allNoPos_nil) allNoPos_nil

theorem noPos_transform (node : NodeData) :
    AllNoPos (get_transform_styles node) := by
  unfold get_transform_styles
  split
  · exact allNoPos_ite _ (allNoPos_cons rfl allNoPos_nil) allNoPos_nil
  · exact allNoPos_nil

theorem noPos_fill (fill : Paint) : AllNoPos (fill_styles fill) := by
  unfold fill_styles
  refine allNoPos_ite _ allNoPos_nil ?_
  split
  · exact allNoPos_cons (by split <;> rfl) allNoPos_nil
  · split
    · exact allNoPos_cons rfl allNoPos_nil
    · exact allNoPos_nil
  · split
    · exact allNoPos_cons rfl allNoPos_nil
    · exact allNoPos_nil
  · split
    · exact allNoPos_cons rfl allNoPos_nil
    · exact allNoPos_nil
  · split
    · exact allNoPos_cons rfl allNoPos_nil
    · exact allNoPos_nil
  · exact allNoPos_nil

theorem noPos_background (node : NodeData) :
    AllNoPos (get_background_styles node) := by
  unfold get_background_styles
  exact allNoPos_flatMap noPos_fill

theorem noPos_stroke (w : ℚ) (al : String) (stroke : Paint) :
    AllNoPos (stroke_styles w al stroke) := by
  unfold stroke_styles
  refine allNoPos_ite _ allNoPos_nil ?_
  split
  · exact allNoPos_cons rfl
      (allNoPos_ite _ (allNoPos_cons rfl allNoPos_nil) allNoPos_nil)
  · split
    · exact allNoPos_cons rfl (allNoPos_cons rfl allNoPos_nil)
    · exact allNoPos_nil
  · exact allNoPos_nil

theorem noPos_border (node : NodeData) : AllNoPos (get_border_styles node) := by
  unfold get_border_styles
  refine allNoPos_ite _ allNoPos_nil
    (allNoPos_append (allNoPos_flatMap (noPos_stroke _ _)) ?_)
  split
  · exact allNoPos_cons rfl (allNoPos_cons rfl
      (allNoPos_cons rfl (allNoPos_cons rfl allNoPos_nil)))
  · exact allNoPos_nil

theorem noPos_radius (node : NodeData) : AllNoPos (get_border_radius node) := by
  unfold get_border_radius
  refine allNoPos_append ?_ ?_
  · split
    · exact allNoPos_ite _ (allNoPos_cons rfl allNoPos_nil) allNoPos_nil
    · exact allNoPos_nil
  · split
    · exact allNoPos_cons rfl allNoPos_nil
    · exact allNoPos_nil
    · exact allNoPos_nil

theorem noPos_effects (node : NodeData) : AllNoPos (get_effect_styles node) := by
  unfold get_effect_styles
  refine allNoPos_append (allNoPos_flatMap ?_) ?_
  · intro effect
    unfold blur_decl
    refine allNoPos_ite _ allNoPos_nil ?_
    split
    · exact allNoPos_ite _ (allNoPos_cons rfl allNoPos_nil) allNoPos_nil
    · exact allNoPos_ite _ (allNoPos_cons rfl allNoPos_nil) allNoPos_nil
    · exact allNoPos_nil
  · exact allNoPos_ite _ allNoPos_nil (allNoPos_cons rfl allNoPos_nil)

theorem noPos_opacity (node : NodeData) : AllNoPos (get_opacity node) := by
  unfold get_opacity
  exact allNoPos_ite _ (allNoPos_cons rfl allNoPos_nil) allNoPos_nil

theorem noPos_blend (node : NodeData) : AllNoPos (get_blend_mode node) := by
  unfold get_blend_mode
  cases hc : List.lookup (node.blendMode.getD "PASS_THROUGH") blend_mode_map with
  | none => simp only [hc]; exact allNoPos_nil
  | some css => simp only [hc]; exact allNoPos_cons rfl allNoPos_nil

theorem noPos_text (node : NodeData) : AllNoPos (get_text_styles node) := by
  unfold get_text_styles
  refine allNoPos_append (allNoPos_append (allNoPos_append (allNoPos_append
    (allNoPos_append (allNoPos_append (allNoPos_append (allNoPos_append
      ?_ ?_) ?_) ?_) ?_) ?_) ?_) ?_) ?_
  · split
    · exact allNoPos_cons rfl allNoPos_nil
    · exact allNoPos_nil
  · split
    · exact allNoPos_cons rfl allNoPos_nil
    · exact allNoPos_nil
  · split
    · exact allNoPos_cons rfl allNoPos_nil
    · exact allNoPos_nil
  · split
    · exact allNoPos_cons rfl allNoPos_nil
    · split
      · exact allNoPos_cons rfl allNoPos_nil
      · split
        · exact allNoPos_cons rfl allNoPos_nil
        · exact allNoPos_nil
  · split
    · exact allNoPos_cons rfl allNoPos_nil
    · exact allNoPos_nil
  · split
    · exact allNoPos_ite _ (allNoPos_cons (by split <;> rfl) allNoPos_nil)
        allNoPos_nil
    · exact allNoPos_nil
  · split
    · refine allNoPos_ite _ (allNoPos_cons rfl allNoPos_nil) ?_
      refine allNoPos_ite _ (allNoPos_cons rfl allNoPos_nil) ?_
      exact allNoPos_ite _ (allNoPos_cons rfl allNoPos_nil) allNoPos_nil
    · exact allNoPos_nil
  · split
    · exact allNoPos_ite _ (allNoPos_cons (by split <;> rfl) allNoPos_nil)
        allNoPos_nil
    · exact allNoPos_nil
  · split
    · exact allNoPos_cons rfl allNoPos_nil
    · exact allNoPos_cons rfl allNoPos_nil
    · exact allNoPos_cons rfl allNoPos_nil
    · exact allNoPos_nil

/-- Under an auto-layout parent, `get_position_styles` emits nothing
(`layout_converter.py` lines 22-29). -/
theorem position_styles_auto_layout (node parent : NodeData)
    (h : parent.layoutMode = some "HORIZONTAL" ∨
      parent.layoutMode = some "VERTICAL") :
    get_position_styles node (some parent) = [] := by
  unfold get_position_styles
  simp [h]

/-- The base style list of a node under an auto-layout parent contains no
position/left/top declaration. -/
theorem allNoPos_base_auto (node parent : NodeData)
    (h : parent.layoutMode = some "HORIZONTAL" ∨
      parent.layoutMode = some "VERTICAL") :
    AllNoPos (collect_styles_base node (some parent)) := by
  unfold collect_styles_base
  refine allNoPos_append (allNoPos_append (allNoPos_append (allNoPos_append
    (allNoPos_append (allNoPos_append (allNoPos_append (allNoPos_append
      (allNoPos_append (allNoPos_append (noPos_auto_layout node) ?_)
        (noPos_size node)) (noPos_overflow node)) (noPos_transform node))
      (noPos_background node)) (noPos_border node)) (noPos_radius node))
    (noPos_effects node)) (noPos_opacity node)) (noPos_blend node)
  rw [position_styles_auto_layout node parent h]
  exact allNoPos_nil

/-- C4: for every node whose parent has `layoutMode` HORIZONTAL or
VERTICAL, the merged style list computed by `_collect_styles` contains no
`position`, `left` or `top` declaration — flex placement alone governs such
a child. -/
theorem spec_c4_positioning_exclusivity (node parent : NodeData)
    (h : parent.layoutMode = some "HORIZONTAL" ∨
      parent.layoutMode = some "VERTICAL") :
    ∀ s ∈ collect_styles node (some parent), isPosDecl s = false := by
  have hbase := allNoPos_base_auto node parent h
  have hwt : AllNoPos (collect_styles_with_text node (some parent)) := by
    unfold collect_styles_with_text
    exact allNoPos_append hbase (noPos_text node)
  unfold collect_styles
  split
  · exact allNoPos_append
      (allNoPos_ite _ hwt
        (allNoPos_append hwt (allNoPos_cons rfl allNoPos_nil)))
      (allNoPos_cons rfl allNoPos_nil)
  · exact hbase

/-- C3 (amended): a non-structural node (type not DOCUMENT/CANVAS) with
`visible = false` contributes nothing: empty markup, untouched state, and
its subtree is never visited. -/
theorem spec_c3_invisible_contributes_nothing (st : GenState) (node : Node)
    (parent : Option NodeData) (depth : Nat)
    (hd : node.data.type ≠ some "DOCUMENT")
    (hc : node.data.type ≠ some "CANVAS")
    (hv : node.data.visible = some false) :
    generate_node_html st node parent depth = ("", st) := by
  cases node with
  | mk data cs =>
    simp only [Node.data] at hd hc hv
    rw [generate_node_html]
    simp [hd, hc, hv]

/-- C1 (amended): a document whose children list is empty yields the
literal fallback fragment and an empty CSS string (not the base reset
block), with the state untouched. -/
theorem spec_c1_empty_document (st : GenState) (data : NodeData) :
    generate_html_css st ⟨some (Node.mk data [])⟩ =
      (("<div>No content</div>", ""), st) := by
  rfl

/-- The concrete empty document `{document: {children: []}}`. -/
def empty_document : FigmaData := ⟨some (Node.mk NodeData.empty [])⟩

/-- C1 counterexample: on the empty document the CSS output is the empty
string, which differs from the base reset block the claim promises. -/
theorem spec_c1_counterexample :
    (generate_html_css initState empty_document).1.1 = "<div>No content</div>"
    ∧ (generate_html_css initState empty_document).1.2 = ""
    ∧ (generate_html_css initState empty_document).1.2 ≠ base_styles := by
  refine ⟨rfl, rfl, ?_⟩
  decide

/-- The x coordinate of a node's own bounding-box origin, with the
source's `.get` defaults. -/
def node_origin_x (node : NodeData) : ℚ :=
  (node.absoluteBoundingBox.getD BBox.empty).x.getD 0

/-- The y coordinate of a node's own bounding-box origin. -/
def node_origin_y (node : NodeData) : ℚ :=
  (node.absoluteBoundingBox.getD BBox.empty).y.getD 0

/-- The x coordinate of a parent's bounding-box origin: the `x` of its
`absoluteBoundingBox` when present (missing `x` defaulting to 0), and `0`
when the parent has no bounding box at all — in which case the source skips
the subtraction, which is the same thing. -/
def parent_origin_x (p : NodeData) : ℚ :=
  match p.absoluteBoundingBox with
  | some b => b.x.getD 0
  | none => 0

/-- The y coordinate of a parent's bounding-box origin. -/
def parent_origin_y (p : NodeData) : ℚ :=
  match p.absoluteBoundingBox with
  | some b => b.y.getD 0
  | none => 0

/-- C6: whenever `get_position_styles` emits absolute positioning for a
node with a parent, the left/top values are the node's absolute origin
minus the parent's origin; only a parentless (root-page) call uses the
node's document-space origin unchanged. -/
theorem spec_c6_relative_positioning (node p : NodeData)
    (h : ¬(p.layoutMode = some "HORIZONTAL" ∨
      p.layoutMode = some "VERTICAL")) :
    get_position_styles node (some p) =
      ["position: absolute;",
       "left: " ++ pyStr (node_origin_x node - parent_origin_x p) ++ "px;",
       "top: " ++ pyStr (node_origin_y node - parent_origin_y p) ++ "px;"]
    ∧ get_position_styles node none =
      ["position: absolute;",
       "left: " ++ pyStr (node_origin_x node) ++ "px;",
       "top: " ++ pyStr (node_origin_y node) ++ "px;"] := by
  constructor
  · unfold get_position_styles node_origin_x node_origin_y
    cases hb : p.absoluteBoundingBox with
    | some b => simp [h, hb, parent_origin_x, parent_origin_y]
    | none => simp [h, hb, parent_origin_x, parent_origin_y]
  · unfold get_position_styles node_origin_x node_origin_y
    simp

/-- C10: a node carrying both a positive uniform `cornerRadius` and a
4-element `rectangleCornerRadii` receives two `border-radius` declarations,
the uniform one first and the 4-value shorthand last. -/
theorem spec_c10_border_radius (node : NodeData) (radius r0 r1 r2 r3 : ℚ)
    (hc : node.cornerRadius = some radius) (hpos : radius > 0)
    (hr : node.rectangleCornerRadii = some [r0, r1, r2, r3]) :
    get_border_radius node =
      ["border-radius: " ++ pyStr radius ++ "px;",
       "border-radius: " ++ pyStr r0 ++ "px " ++ pyStr r1 ++ "px " ++
         pyStr r2 ++ "px " ++ pyStr r3 ++ "px;"] := by
  unfold get_border_radius
  rw [hc, hr]
  simp [hpos]

/-- C5 (amended): for every TEXT node, `align-items: center;` is appended
unconditionally and is therefore the final declaration of the merged style
list; `display: flex;` alone is subject to the already-present check. -/
theorem spec_c5_align_center_is_last (node : NodeData)
    (parent : Option NodeData) (h : node.type = some "TEXT") :
    (collect_styles node parent).getLast? = some "align-items: center;"
    ∧ ("display: flex;" ∈ collect_styles_with_text node parent →
        collect_styles node parent =
          collect_styles_with_text node parent ++ ["align-items: center;"]) := by
  unfold collect_styles
  rw [if_pos h]
  constructor
  · exact List.getLast?_concat _
  · intro hmem
    simp [hmem]

/-- A TEXT node that is itself an auto-layout container, so its style list
already contains `display: flex;` before the TEXT-specific block. -/
def text_flex_node : NodeData :=
  { NodeData.empty with type := some "TEXT", layoutMode := some "HORIZONTAL" }

/-- A TEXT node whose `textAlignVertical` is TOP. -/
def text_top_node : NodeData :=
  { NodeData.empty with
      type := some "TEXT"
      style := some { TextStyle.empty with textAlignVertical := some "TOP" } }

/-- C5 counterexample: for a TEXT node whose style list already contains
`display: flex;`, the source still appends `align-items: center;`; and for
a TEXT node with `textAlignVertical = TOP` the derived
`align-items: flex-start;` is followed by `display: flex;` and
`align-items: center;`, so the derived value is not the last `align-items`
declaration. -/
theorem spec_c5_counterexample :
    "display: flex;" ∈ collect_styles_with_text text_flex_node none
    ∧ collect_styles text_flex_node none =
        collect_styles_with_text text_flex_node none ++
          ["align-items: center;"]
    ∧ collect_styles text_top_node none =
        ["position: absolute;", "left: 0px;", "top: 0px;",
         "align-items: flex-start;", "display: flex;",
         "align-items: center;"] := by
  refine ⟨?_, rfl, rfl⟩
  decide

/-- The rule blocks serialized by `_generate_css` are unchanged when the
entries with an empty style list are removed from the side table. -/
theorem css_entry_parts_filter (table : List (String × List String)) :
    table.flatMap css_entry_parts =
      (table.filter (fun e => !e.2.isEmpty)).flatMap css_entry_parts := by
  induction table with
  | nil => rfl
  | cons e rest ih =>
    rcases e with ⟨cls, styles⟩
    cases styles with
    | nil => simpa [css_entry_parts] using ih
    | cons s ss => simp [css_entry_parts, ih]

/-- C7 (amended): a visited, visible, non-structural node registers its
class in the side table even when its merged style list is empty (line 82
of `html_generator.py` is unconditional); the serialized stylesheet still
contains no rule block for such a class, because `_generate_css` skips
entries with an empty style list. -/
theorem spec_c7_empty_styles (table : List (String × List String))
    (st : GenState) (data : NodeData) (parent : Option NodeData)
    (depth : Nat) (hd : data.type ≠ some "DOCUMENT")
    (hc : data.type ≠ some "CANVAS") (hv : data.visible.getD true = true) :
    generate_css table =
      generate_css (table.filter (fun e => !e.2.isEmpty))
    ∧ (generate_node_html st (Node.mk data []) parent depth).2.css_classes =
        dictInsert st.css_classes (generate_class_name st data).1
          (collect_styles data parent) := by
  constructor
  · unfold generate_css
    rw [css_entry_parts_filter]
  · rw [generate_node_html]
    simp only [Node.data]
    rw [if_neg (by simp [hd, hc]), if_neg (by simp [hv])]
    simp only [generate_children]
    split
    · rfl
    · split
      · rfl
      · rfl

/-- An auto-layout FRAME parent named `p`. -/
def parent_h : NodeData :=
  { NodeData.empty with
      type := some "FRAME"
      layoutMode := some "HORIZONTAL"
      name := some "p" }

/-- An unnamed FRAME child with no properties: under an auto-layout parent
its merged style list is empty. -/
def child_empty : NodeData := { NodeData.empty with type := some "FRAME" }

/-- C7 counterexample: visiting the frame `p` with its style-less child
registers the entry `("figma-element-2", [])` in the side table — the claim
says an empty-styled node's class is not registered — while the serialized
stylesheet is indeed unchanged by dropping the empty entry. -/
theorem spec_c7_counterexample :
    collect_styles child_empty (some parent_h) = []
    ∧ ("figma-element-2", []) ∈
        (generate_node_html initState
          (Node.mk parent_h [Node.mk child_empty []]) none 0).2.css_classes
    ∧ generate_css
        (generate_node_html initState
          (Node.mk parent_h [Node.mk child_empty []]) none 0).2.css_classes =
      generate_css
        ((generate_node_html initState
          (Node.mk parent_h [Node.mk child_empty []]) none 0).2.css_classes.filter
            (fun e => !e.2.isEmpty)) := by
  refine ⟨rfl, ?_, rfl⟩
  decide

/-- The value `1/2` in reduced form, so that it evaluates by kernel
reduction. -/
def halfQ : ℚ := ⟨1, 2, by norm_num, by simp⟩

/-- The value `1/4` in reduced form. -/
def quarterQ : ℚ := ⟨1, 4, by norm_num, by simp⟩

theorem halfQ_eq : halfQ = 1 / 2 := by
  rw [halfQ, Rat.mk'_eq_divInt, Rat.divInt_eq_div]
  norm_num

theorem quarterQ_eq : quarterQ = 1 / 4 := by
  rw [quarterQ, Rat.mk'_eq_divInt, Rat.divInt_eq_div]
  norm_num

theorem pyStr_quarterQ : pyStr quarterQ = "0.25" := by decide

/-- A SOLID blue fill with color alpha `0.5` and paint opacity `0.5`. -/
def blue_half_fill : Paint :=
  ⟨some "SOLID", none, some halfQ,
   some ⟨some 0, some 0, some 1, some halfQ⟩, [], [], none⟩

/-- C8: `rgba_to_css` truncates channels (floor of `channel * 255`, an
integer in 0–255 for a normalized channel), renders the red test color as
`rgba(255, 0, 0, 1)`, and the SOLID-fill path multiplies the color alpha by
the paint opacity — in particular alpha `0.5` with opacity `0.5` yields the
component `0.25`. -/
theorem spec_c8_color_conversion (q : ℚ) (c : Color) (op : ℚ)
    (h0 : 0 ≤ q) (h1 : q ≤ 1) (hop : op < 1) :
    (pyInt (q * 255) = ⌊q * 255⌋ ∧ 0 ≤ pyInt (q * 255) ∧
      pyInt (q * 255) ≤ 255)
    ∧ fill_styles ⟨some "SOLID", none, some op, some c, [], [], none⟩ =
        ["background-color: " ++
          ("rgba(" ++ toString (pyInt ((c.r.getD 0) * 255)) ++ ", " ++
            toString (pyInt ((c.g.getD 0) * 255)) ++ ", " ++
            toString (pyInt ((c.b.getD 0) * 255)) ++ "," ++
            pyStr ((c.a.getD 1) * op) ++ ")") ++ ";"]
    ∧ rgba_to_css ⟨some 1, some 0, some 0, some 1⟩ = "rgba(255, 0, 0, 1)"
    ∧ fill_styles blue_half_fill =
        ["background-color: rgba(0, 0, 255,0.25);"] := by
  have hnn : (0 : ℚ) ≤ q * 255 := by positivity
  have htrunc : pyInt (q * 255) = ⌊q * 255⌋ := by
    rw [pyInt, if_neg (not_lt.mpr hnn)]
    exact ratFloor_eq_floor _
  refine ⟨⟨htrunc, ?_, ?_⟩, ?_, ?_, ?_⟩
  · rw [htrunc]
    exact Int.floor_nonneg.mpr hnn
  · rw [htrunc]
    calc ⌊q * 255⌋ ≤ ⌊(255 : ℚ)⌋ := Int.floor_le_floor (by nlinarith)
    _ = 255 := by norm_num
  · unfold fill_styles
    simp [hop]
  · norm_num [rgba_to_css, pyInt, ratFloor, pyStr]
    rfl
  · have hh1 : halfQ < 1 := by
      rw [halfQ_eq]
      norm_num
    have hmul : halfQ * halfQ = quarterQ := by
      rw [halfQ_eq, quarterQ_eq]
      norm_num
    unfold fill_styles blue_half_fill
    simp only [Option.getD_some, Option.getD_none, hh1, if_pos, if_neg,
      Bool.true_eq_false, ite_false, hmul, pyStr_quarterQ]
    norm_num [pyInt, ratFloor]
    rfl

/-- C9: the linear-gradient angle is `atan2(dy, dx)` in degrees plus 90 for
`(dx, dy) = handle[1] - handle[0]` whenever at least two handles are given
(with the source's `.get` defaults), and 180 with fewer than two handles;
horizontal handles `(0,0) → (1,0)` give 90 and vertical handles
`(0,0) → (0,1)` give 180. -/
theorem spec_c9_gradient_angle :
    (∀ (h1 h2 : Handle) (rest : List Handle),
      gradient_angle (h1 :: h2 :: rest) =
        degrees (atan2
          (((h2.y.getD 1 : ℚ) : ℝ) - ((h1.y.getD 0 : ℚ) : ℝ))
          (((h2.x.getD 1 : ℚ) : ℝ) - ((h1.x.getD 0 : ℚ) : ℝ))) + 90)
    ∧ gradient_angle [] = 180
    ∧ (∀ h : Handle, gradient_angle [h] = 180)
    ∧ gradient_angle [⟨some 0, some 0⟩, ⟨some 1, some 0⟩] = 90
    ∧ gradient_angle [⟨some 0, some 0⟩, ⟨some 0, some 1⟩] = 180 := by
  refine ⟨fun h1 h2 rest => rfl, rfl, fun h => rfl, ?_, ?_⟩
  · show degrees (atan2 (((0 : ℚ) : ℝ) - ((0 : ℚ) : ℝ))
      (((1 : ℚ) : ℝ) - ((0 : ℚ) : ℝ))) + 90 = 90
    have ha : atan2 (((0 : ℚ) : ℝ) - ((0 : ℚ) : ℝ))
        (((1 : ℚ) : ℝ) - ((0 : ℚ) : ℝ)) = 0 := by
      unfold atan2
      have : (⟨((1 : ℚ) : ℝ) - ((0 : ℚ) : ℝ),
          ((0 : ℚ) : ℝ) - ((0 : ℚ) : ℝ)⟩ : ℂ) = 1 := by
        apply Complex.ext <;> simp
      rw [this, Complex.arg_one]
    rw [ha]
    unfold degrees
    norm_num
  · show degrees (atan2 (((1 : ℚ) : ℝ) - ((0 : ℚ) : ℝ))
      (((0 : ℚ) : ℝ) - ((0 : ℚ) : ℝ))) + 90 = 180
    have ha : atan2 (((1 : ℚ) : ℝ) - ((0 : ℚ) : ℝ))
        (((0 : ℚ) : ℝ) - ((0 : ℚ) : ℝ)) = Real.pi / 2 := by
      unfold atan2
      have : (⟨((0 : ℚ) : ℝ) - ((0 : ℚ) : ℝ),
          ((1 : ℚ) : ℝ) - ((0 : ℚ) : ℝ)⟩ : ℂ) = Complex.I := by
        apply Complex.ext <;> simp
      rw [this, Complex.arg_I]
    rw [ha]
    unfold degrees
    have hpi : Real.pi ≠ 0 := Real.pi_ne_zero
    field_simp
    ring

mutual

/-- The markup produced by a node visit, and the resulting counter, depend
on the inherited state only through its counter — never through the
inherited side table, which is only written to. -/
theorem generate_node_html_table_indep (node : Node) (parent : Option NodeData)
    (depth : Nat) (st st' : GenState)
    (h : st.class_counter = st'.class_counter) :
    (generate_node_html st node parent depth).1 =
      (generate_node_html st' node parent depth).1 ∧
    (generate_node_html st node parent depth).2.class_counter =
      (generate_node_html st' node parent depth).2.class_counter := by
  cases node with
  | mk data children =>
    rw [generate_node_html, generate_node_html]
    by_cases hs : data.type = some "DOCUMENT" ∨ data.type = some "CANVAS"
    · rw [if_pos hs, if_pos hs]
      obtain ⟨h1, h2⟩ :=
        generate_children_table_indep children data depth st st' h
      exact ⟨by simp only [h1], by simp only [h2]⟩
    · rw [if_neg hs, if_neg hs]
      by_cases hv : data.visible.getD true = false
      · rw [if_pos hv, if_pos hv]
        exact ⟨rfl, h⟩
      · rw [if_neg hv, if_neg hv]
        by_cases ht : data.type = some "TEXT"
        · rw [if_pos ht, if_pos ht]
          simp [generate_class_name, h]
        · rw [if_neg ht, if_neg ht]
          obtain ⟨h1, h2⟩ := generate_children_table_indep children data
            (depth + 1)
            ⟨dictInsert (generate_class_name st data).2.css_classes
              (generate_class_name st data).1
              (collect_styles data parent),
             (generate_class_name st data).2.class_counter⟩
            ⟨dictInsert (generate_class_name st' data).2.css_classes
              (generate_class_name st' data).1
              (collect_styles data parent),
             (generate_class_name st' data).2.class_counter⟩
            (by simp [generate_class_name, h])
          simp only [generate_class_name] at h1 h2 ⊢
          rw [h] at h1 h2 ⊢
          constructor
          · split
            · rfl
            · rw [h1]
          · split
            · exact h2
            · exact h2

/-- The list of child fragments, and the resulting counter, depend on the
inherited state only through its counter. -/
theorem generate_children_table_indep (nodes : List Node) (parent : NodeData)
    (depth : Nat) (st st' : GenState)
    (h : st.class_counter = st'.class_counter) :
    (generate_children st nodes parent depth).1 =
      (generate_children st' nodes parent depth).1 ∧
    (generate_children st nodes parent depth).2.class_counter =
      (generate_children st' nodes parent depth).2.class_counter := by
  cases nodes with
  | nil => exact ⟨rfl, h⟩
  | cons c rest =>
    rw [generate_children, generate_children]
    obtain ⟨h1, h2⟩ :=
      generate_node_html_table_indep c (some parent) depth st st' h
    obtain ⟨g1, g2⟩ := generate_children_table_indep rest parent depth
      (generate_node_html st c (some parent) depth).2
      (generate_node_html st' c (some parent) depth).2 h2
    refine ⟨?_, g2⟩
    rw [h1, g1]

end

/-- C2 (amended): conversion is a pure function of the generator state and
the input — two runs from equal states are byte-identical, and the HTML
depends on the inherited state only through the class counter (the
inherited side table is never read while producing markup).  Freshness is
established by `__init__` (`initState`), not by `generate_html_css`. -/
theorem spec_c2_determinism (figma : FigmaData)
    (cs cs' : List (String × List String)) (n : Nat) :
    (generate_html_css ⟨cs, n⟩ figma).1.1 =
      (generate_html_css ⟨cs', n⟩ figma).1.1
    ∧ (generate_html_css initState figma).1 =
      (generate_html_css initState figma).1 := by
  refine ⟨?_, rfl⟩
  obtain ⟨doc⟩ := figma
  cases doc with
  | none => rfl
  | some dn =>
    obtain ⟨ddata, dchildren⟩ := dn
    cases dchildren with
    | nil => rfl
    | cons page rest =>
      obtain ⟨h1, _⟩ := generate_node_html_table_indep page none 0
        ⟨cs, n⟩ ⟨cs', n⟩ rfl
      show wrap_html (generate_node_html ⟨cs, n⟩ page none 0).1 =
        wrap_html (generate_node_html ⟨cs', n⟩ page none 0).1
      rw [h1]

/-- A document with a single FRAME page named `frame`. -/
def frame_doc : FigmaData :=
  ⟨some (Node.mk { NodeData.empty with type := some "DOCUMENT" }
    [Node.mk { NodeData.empty with type := some "FRAME", name := some "frame" }
      []])⟩

set_option maxRecDepth 8192 in
/-- C2 counterexample: `generate_html_css` does not reset the counter or
the side table, so calling it a second time on the state left by the first
call (same generator instance, same input) yields different HTML (the class
is numbered 2) and different CSS (the stale entry is still serialized). -/
theorem spec_c2_counterexample :
    (generate_html_css initState frame_doc).1.1 ≠
      (generate_html_css (generate_html_css initState frame_doc).2
        frame_doc).1.1
    ∧ (generate_html_css initState frame_doc).1.2 ≠
      (generate_html_css (generate_html_css initState frame_doc).2
        frame_doc).1.2
    ∧ (generate_html_css initState frame_doc).2.class_counter = 1 := by
  refine ⟨?_, ?_, rfl⟩ <;> decide

/-- A CANVAS node data with `visible: false`. -/
def canvas_invisible : NodeData :=
  { NodeData.empty with type := some "CANVAS", visible := some false }

/-- A visible FRAME named `f`. -/
def frame_f : NodeData :=
  { NodeData.empty with type := some "FRAME", name := some "f" }

/-- C3 counterexample: an invisible CANVAS with a visible FRAME child —
the structural branch runs before the visibility check, so the invisible
node's descendant still appears in the markup and in the side table. -/
theorem spec_c3_counterexample :
    (Node.mk canvas_invisible [Node.mk frame_f []]).data.visible = some false
    ∧ (generate_node_html initState
        (Node.mk canvas_invisible [Node.mk frame_f []]) none 0).1 =
      "<div class=\"figma-f-1\">\n\n</div>"
    ∧ (generate_node_html initState
        (Node.mk canvas_invisible [Node.mk frame_f []]) none 0).1 ≠ ""
    ∧ (generate_node_html initState
        (Node.mk canvas_invisible [Node.mk frame_f []]) none 0).2.css_classes
        ≠ [] := by
  refine ⟨rfl, rfl, ?_, ?_⟩ <;> decide

/-- An invisible FRAME node data. -/
def frame_invisible : NodeData :=
  { NodeData.empty with type := some "FRAME", visible := some false }

/-- Witness for C3's theorem at a concrete invisible FRAME. -/
theorem spec_c3_witness :
    generate_node_html initState (Node.mk frame_invisible []) none 0 =
      ("", initState) :=
  spec_c3_invisible_contributes_nothing initState (Node.mk frame_invisible [])
    none 0 (by decide) (by decide) rfl

/-- A FRAME with a bounding box and content clipping, used as a child of
the auto-layout parent `parent_h`. -/
def c4_node : NodeData :=
  { NodeData.empty with
      type := some "FRAME"
      clipsContent := some true
      absoluteBoundingBox := some ⟨some 10, some 10, some 50, some 20⟩ }

/-- Witness for C4's theorem: the hypothesis holds for `parent_h`, and the
theorem applies to the concrete member `overflow: hidden;` of the child's
merged style list. -/
theorem spec_c4_witness :
    (parent_h.layoutMode = some "HORIZONTAL" ∨
      parent_h.layoutMode = some "VERTICAL")
    ∧ isPosDecl "overflow: hidden;" = false :=
  ⟨Or.inl rfl, spec_c4_positioning_exclusivity c4_node parent_h (Or.inl rfl)
    "overflow: hidden;" (by decide)⟩

/-- Witness for C5's amended theorem at the flex TEXT node. -/
theorem spec_c5_witness :
    text_flex_node.type = some "TEXT"
    ∧ (collect_styles text_flex_node none).getLast? =
        some "align-items: center;"
    ∧ collect_styles text_flex_node none =
        collect_styles_with_text text_flex_node none ++
          ["align-items: center;"] :=
  ⟨rfl, (spec_c5_align_center_is_last text_flex_node none rfl).1,
    (spec_c5_align_center_is_last text_flex_node none rfl).2 (by decide)⟩

/-- A node at document position (7, 5). -/
def c6_node : NodeData :=
  { NodeData.empty with
      absoluteBoundingBox := some ⟨some 7, some 5, some 10, some 10⟩ }

/-- A non-auto-layout parent at document position (3, 1). -/
def c6_parent : NodeData :=
  { NodeData.empty with
      type := some "FRAME"
      absoluteBoundingBox := some ⟨some 3, some 1, some 100, some 100⟩ }

/-- Witness for C6's theorem at concrete node and parent coordinates. -/
theorem spec_c6_witness :
    ¬(c6_parent.layoutMode = some "HORIZONTAL" ∨
      c6_parent.layoutMode = some "VERTICAL")
    ∧ get_position_styles c6_node (some c6_parent) =
        ["position: absolute;",
         "left: " ++ pyStr (node_origin_x c6_node - parent_origin_x c6_parent)
           ++ "px;",
         "top: " ++ pyStr (node_origin_y c6_node - parent_origin_y c6_parent)
           ++ "px;"]
    ∧ get_position_styles c6_node none =
        ["position: absolute;",
         "left: " ++ pyStr (node_origin_x c6_node) ++ "px;",
         "top: " ++ pyStr (node_origin_y c6_node) ++ "px;"] :=
  ⟨by decide,
   (spec_c6_relative_positioning c6_node c6_parent (by decide)).1,
   (spec_c6_relative_positioning c6_node c6_parent (by decide)).2⟩

/-- Witness for C7's theorem at a concrete one-entry table and the
style-less child under the auto-layout parent. -/
theorem spec_c7_witness :
    generate_css [("a", ([] : List String))] =
      generate_css ([("a", ([] : List String))].filter (fun e => !e.2.isEmpty))
    ∧ (generate_node_html initState (Node.mk child_empty [])
        (some parent_h) 0).2.css_classes =
        dictInsert initState.css_classes
          (generate_class_name initState child_empty).1
          (collect_styles child_empty (some parent_h)) :=
  spec_c7_empty_styles [("a", [])] initState child_empty (some parent_h) 0
    (by decide) (by decide) rfl

/-- Witness for C8's theorem at channel 0, the empty color and paint
opacity 0. -/
theorem spec_c8_witness :
    (pyInt ((0 : ℚ) * 255) = ⌊(0 : ℚ) * 255⌋ ∧ 0 ≤ pyInt ((0 : ℚ) * 255) ∧
      pyInt ((0 : ℚ) * 255) ≤ 255)
    ∧ fill_styles ⟨some "SOLID", none, some 0, some Color.empty, [], [],
        none⟩ =
        ["background-color: " ++
          ("rgba(" ++ toString (pyInt ((Color.empty.r.getD 0) * 255)) ++ ", "
            ++ toString (pyInt ((Color.empty.g.getD 0) * 255)) ++ ", " ++
            toString (pyInt ((Color.empty.b.getD 0) * 255)) ++ "," ++
            pyStr ((Color.empty.a.getD 1) * 0) ++ ")") ++ ";"]
    ∧ rgba_to_css ⟨some 1, some 0, some 0, some 1⟩ = "rgba(255, 0, 0, 1)"
    ∧ fill_styles blue_half_fill =
        ["background-color: rgba(0, 0, 255,0.25);"] :=
  spec_c8_color_conversion 0 Color.empty 0 (by decide) (by decide) (by decide)

/-- A node with a uniform corner radius of 8 and individual radii 1-4. -/
def c10_node : NodeData :=
  { NodeData.empty with
      cornerRadius := some 8
      rectangleCornerRadii := some [1, 2, 3, 4] }

/-- Witness for C10's theorem at that concrete node. -/
theorem spec_c10_witness :
    get_border_radius c10_node =
      ["border-radius: " ++ pyStr 8 ++ "px;",
       "border-radius: " ++ pyStr 1 ++ "px " ++ pyStr 2 ++ "px " ++
         pyStr 3 ++ "px " ++ pyStr 4 ++ "px;"] :=
  spec_c10_border_radius c10_node 8 1 2 3 4 rfl (by decide) rfl
